import Mathlib

/-!
Verification development for the frontend-project analyzer (src/main.rs).

The program scans a project tree, collects file populations by extension
(`find_files_with_extension` / `find_files_recursive`), runs eleven category
analyzers over file contents (substring and simple-regex evidence), and
returns an ordered list of `AnalysisResult` records.

The shallow embedding below models
  - the filesystem as an inductive tree (`FSEntries` / `FS`), where a
    directory carries a `listable` flag (false = `fs::read_dir` fails) and a
    file carries `Option String` content (none = `fs::read_to_string` fails);
  - collected files as `FileRef` (path plus the content the frozen tree
    holds at that path);
  - every analyzer as a pure core function over a population, wrapped by an
    `Except Unit` function of the tree (errors carry no payload that the
    claims depend on, so the error type is `Unit`);
  - the three regexes of the source (try-block pattern, URL pattern,
    media-query pattern) as deterministic scanners over `List Char`
    (for these patterns the regex backtracking collapses: a greedy class run
    never needs to backtrack into a character its follower could match).
-/

/-- Mirrors `struct AnalysisResult` (src/main.rs lines 8-15). -/
structure AnalysisResult where
  category : String
  status : String
  details : List String
  warnings : List String
  errors : List String
deriving DecidableEq

/-- A file discovered by the collector: the path string pushed into the
result vector, together with the content that `fs::read_to_string` would
produce at that path in the frozen tree (`none` = read fails). -/
structure FileRef where
  path : String
  content : Option String
deriving DecidableEq

/-- A directory listing of the project tree, as a cons-list fused into one
inductive (so that the traversal below is structurally recursive):
`file name content rest` is a non-directory entry followed by the rest of
the listing; `dir name listable entries rest` is a directory whose
`fs::read_dir` succeeds iff `listable`, with its own listing `entries`,
followed by the rest. -/
inductive FSEntries where
  | nil
  | file (name : String) (content : Option String) (rest : FSEntries)
  | dir (name : String) (listable : Bool) (entries : FSEntries) (rest : FSEntries)

/-- Concatenation of two directory listings. -/
def FSEntries.append : FSEntries → FSEntries → FSEntries
  | .nil, ys => ys
  | .file n c rest, ys => .file n c (rest.append ys)
  | .dir n lb es rest, ys => .dir n lb es (rest.append ys)

/-- What the project root path refers to: nothing (`Path::is_dir` is false
because the path does not exist), a non-directory, or a directory (whose
own name plays no role: paths are built from the project path string). -/
inductive FS where
  | missing
  | file (name : String) (content : Option String)
  | dir (listable : Bool) (entries : FSEntries)

/-- Rust `str::contains pattern` as literal (non-regex) substring
containment, over the character lists. -/
def strContains (s pat : String) : Bool :=
  go pat.data s.data
where
  go (pat : List Char) : List Char → Bool
    | [] => pat.isPrefixOf []
    | c :: rest => pat.isPrefixOf (c :: rest) || go pat rest

/-- Evidence of one file for one substring check: `if let Ok(content) =
fs::read_to_string(..)` succeeds and the content contains the pattern.  A
file whose read fails contributes no evidence (src/main.rs line 108 etc). -/
def contentHas (f : FileRef) (pat : String) : Bool :=
  match f.content with
  | some c => strContains c pat
  | none => false

/-- Rust `Path::extension` on a file name (as characters): `none` if there
is no dot, or if the name begins with a dot and has no other dot; otherwise
the portion after the final dot. -/
def rustExtension (name : List Char) : Option (List Char) :=
  match name with
  | [] => none
  | c :: rest =>
    let body := if c == '.' then rest else c :: rest
    if body.contains '.' then
      some ((name.reverse.takeWhile (fun b => b != '.')).reverse)
    else none

/-- The match test of `find_files_recursive` (src/main.rs lines 820-823):
the entry has an extension, and either the extension equals the target or
the full path string ends with the literal dotted target. -/
def fileMatches (path name ext : String) : Bool :=
  match rustExtension name.data with
  | none => false
  | some e => e == ext.data || (("." ++ ext).data).isSuffixOf path.data

/-- The directory skip test of `find_files_recursive` (src/main.rs line
817): a sub-directory is skipped when its name starts with a dot or equals
the dependency-cache directory name. -/
def skipDirName (name : String) : Bool :=
  (match name.data with
   | c :: _ => c == '.'
   | [] => false) || name == "node_modules"

/-- The body of `find_files_recursive` (src/main.rs lines 804-830) over the
listed entries of a directory at path `dirPath`: files are matched against
the target and pushed in entry order; sub-directories are skipped by name
or recursed into; a sub-directory whose `fs::read_dir` fails propagates the
error (the source applies `?` to `read_dir` and to the recursive call). -/
def find_files_recursive (dirPath ext : String) : FSEntries → Except Unit (List FileRef)
  | .nil => .ok []
  | .file name c rest => do
      let there ← find_files_recursive dirPath ext rest
      let p := dirPath ++ "/" ++ name
      pure (if fileMatches p name ext then ⟨p, c⟩ :: there else there)
  | .dir name listable entries rest =>
      if skipDirName name then
        find_files_recursive dirPath ext rest
      else if listable then do
        let here ← find_files_recursive (dirPath ++ "/" ++ name) ext entries
        let there ← find_files_recursive dirPath ext rest
        pure (here ++ there)
      else .error ()

/-- Embeds `find_files_with_extension` (src/main.rs lines 798-802): starts the
recursion at the project root.  A root that does not exist or is not a
directory fails `Path::is_dir` and yields an empty population without
error; a root directory whose `read_dir` fails propagates the error. -/
def find_files_with_extension (projectPath : String) (fs : FS) (ext : String) :
    Except Unit (List FileRef) :=
  match fs with
  | .missing => .ok []
  | .file _ _ => .ok []
  | .dir false _ => .error ()
  | .dir true entries => find_files_recursive projectPath ext entries

/-- The whitespace class of the regex escapes used in the source patterns
(modelled for the character range the analyzed sources can contain). -/
def isWsChar (c : Char) : Bool :=
  c == ' ' || c == '\t' || c == '\n' || c == '\r' || c == Char.ofNat 11 || c == Char.ofNat 12

/-- Consume a (possibly empty) maximal whitespace run: the greedy star over
the whitespace class.  For the source patterns the character after the star
is never itself whitespace, so no backtracking into the run can succeed and
the greedy run is the only candidate. -/
def skipWs : List Char → List Char
  | c :: rest => if isWsChar c then skipWs rest else c :: rest
  | [] => []

/-- The open-brace character (written numerically). -/
def braceChar : Char := Char.ofNat 123

/-- One match attempt, at the head of the list, of the try-block regex of
`analyze_error_handling` (src/main.rs line 683): literal try, whitespace
star, open brace.  Returns the remainder after the match. -/
def matchTryAt : List Char → Option (List Char)
  | 't' :: 'r' :: 'y' :: rest =>
    (match skipWs rest with
     | c :: tail => if c == braceChar then some tail else none
     | [] => none)
  | _ => none

/-- The `find_iter` style non-overlapping left-to-right scan for the try-block
regex; structural fuel (initialized to the list length, which each step
consumes at least one character of) keeps the definition kernel-reducible. -/
def countTryAux : Nat → List Char → Nat
  | 0, _ => 0
  | _ + 1, [] => 0
  | fuel + 1, c :: rest =>
    match matchTryAt (c :: rest) with
    | some tail => countTryAux fuel tail + 1
    | none => countTryAux fuel rest

/-- Number of try-block regex matches in one file content. -/
def countTry (l : List Char) : Nat := countTryAux l.length l

/-- Double or single quote, the quote class of the URL regex. -/
def isQuoteChar (c : Char) : Bool := c == Char.ofNat 34 || c == Char.ofNat 39

/-- Literal colon-slash-slash. -/
def matchSlashes : List Char → Option (List Char)
  | ':' :: '/' :: '/' :: r => some r
  | _ => none

/-- One match attempt, at the head of the list, of the URL regex of
`analyze_api` (src/main.rs line 155): quote, http with optional s,
colon-slash-slash, one-or-more non-quote characters (greedy; the follower
is a quote, which the class excludes, so the maximal run is the only
candidate), closing quote. -/
def matchUrlAt : List Char → Option (List Char)
  | c :: 'h' :: 't' :: 't' :: 'p' :: rest =>
    if isQuoteChar c then
      match (match rest with
             | 's' :: r => matchSlashes r
             | _ => matchSlashes rest) with
      | some r2 =>
        (match r2.span (fun b => !(isQuoteChar b)) with
         | (run, _ :: tail) => if run.isEmpty then none else some tail
         | (_, []) => none)
      | none => none
    else none
  | _ => none

/-- Non-overlapping count of URL regex matches (the length that
`captures_iter` contributes to the endpoint vector for one file). -/
def countUrlAux : Nat → List Char → Nat
  | 0, _ => 0
  | _ + 1, [] => 0
  | fuel + 1, c :: rest =>
    match matchUrlAt (c :: rest) with
    | some tail => countUrlAux fuel tail + 1
    | none => countUrlAux fuel rest

/-- Number of URL regex matches in one file content. -/
def countUrl (l : List Char) : Nat := countUrlAux l.length l

/-- One match attempt of the media-query regex of `check_responsive_design`
(src/main.rs line 833): at-media, whitespace star, open paren, non-close
characters star, close paren. -/
def matchMediaAt : List Char → Bool
  | '@' :: 'm' :: 'e' :: 'd' :: 'i' :: 'a' :: rest =>
    (match skipWs rest with
     | '(' :: r => !(r.dropWhile (fun b => b != ')')).isEmpty
     | _ => false)
  | _ => false

/-- Rust `Regex::is_match` for the media-query regex: some position matches. -/
def hasMediaQuery : List Char → Bool
  | [] => false
  | c :: rest => matchMediaAt (c :: rest) || hasMediaQuery rest

/-- The present/absent detail wording used by most checks. -/
def implStatus (b : Bool) : String := if b then "実装済み" else "未確認"

/-- The confirmed/absent detail wording used by some checks. -/
def confirmStatus (b : Bool) : String := if b then "確認済み" else "未確認"

/-- Embeds `check_responsive_design` (src/main.rs lines 832-843): first readable
file in the css-then-scss chain whose content matches the media-query
regex. -/
def check_responsive_design (css scss : List FileRef) : Bool :=
  (css ++ scss).any (fun f =>
    match f.content with
    | some c => hasMediaQuery c.data
    | none => false)

/-- Pure part of `analyze_ui_screens` (src/main.rs lines 46-90) over the
four collected populations. -/
def analyze_ui_screens_core (html comp css scss : List FileRef) : AnalysisResult :=
  { category := "画面", status := "OK",
    details := ["HTMLファイル数: " ++ toString html.length,
                "Angularコンポーネント数: " ++ toString comp.length,
                "スタイルファイル数: " ++ toString (css.length + scss.length) ++
                  " (CSS: " ++ toString css.length ++ ", SCSS: " ++ toString scss.length ++ ")"] ++
      (if check_responsive_design css scss then ["レスポンシブデザイン: 実装済み"] else []),
    warnings := if check_responsive_design css scss then []
                else ["レスポンシブデザインの実装が確認できません"],
    errors := [] }

/-- Files whose content contains the local-storage literal (per-file
presence, src/main.rs lines 109-111). -/
def local_storage_usage (ts : List FileRef) : Nat :=
  ts.countP (fun f => contentHas f ("localStorage"))

/-- Files whose content contains the session-storage literal. -/
def session_storage_usage (ts : List FileRef) : Nat :=
  ts.countP (fun f => contentHas f ("sessionStorage"))

/-- Files whose content contains either indexed-db literal. -/
def indexed_db_usage (ts : List FileRef) : Nat :=
  ts.countP (fun f => contentHas f ("indexedDB") || contentHas f ("IndexedDB"))

/-- Pure part of `analyze_data_storage` (src/main.rs lines 93-138). -/
def analyze_data_storage_core (ts : List FileRef) : AnalysisResult :=
  { category := "データ保持", status := "OK",
    details := ["localStorage使用箇所: " ++ toString (local_storage_usage ts),
                "sessionStorage使用箇所: " ++ toString (session_storage_usage ts),
                "IndexedDB使用箇所: " ++ toString (indexed_db_usage ts)],
    warnings := if local_storage_usage ts = 0 ∧ session_storage_usage ts = 0 ∧
                   indexed_db_usage ts = 0
                then ["データ保持機能が確認できません"] else [],
    errors := [] }

/-- Files whose content shows HTTP client usage (src/main.rs line 161). -/
def http_client_usage (ts : List FileRef) : Nat :=
  ts.countP (fun f => contentHas f ("HttpClient") || contentHas f ("http."))

/-- Total URL regex matches over all readable files: the length of the
endpoint vector of `analyze_api` (src/main.rs lines 166-168). -/
def api_endpoints_count (ts : List FileRef) : Nat :=
  (ts.map (fun f => match f.content with
    | some c => countUrl c.data
    | none => 0)).sum

/-- Files whose content shows error handling (src/main.rs line 180). -/
def api_error_handling_count (ts : List FileRef) : Nat :=
  ts.countP (fun f => contentHas f ("catchError") || contentHas f ("catch("))

/-- The HTTP method list of `analyze_api` (src/main.rs line 156). -/
def http_methods : List String := ["get", "post", "put", "delete", "patch"]

/-- ASCII uppercase of one character. -/
def asciiUpper (c : Char) : Char :=
  if 'a' ≤ c ∧ c ≤ 'z' then Char.ofNat (c.toNat - 32) else c

/-- Rust `str::to_uppercase`, which on the all-ASCII method names is the
character-wise ASCII uppercase map. -/
def upperAscii (s : String) : String := ⟨s.data.map asciiUpper⟩

/-- The method detail lines one file pushes during the loop of
`analyze_api` (src/main.rs lines 171-177), in the fixed method order. -/
def api_method_lines (f : FileRef) : List String :=
  (http_methods.filter (fun m => contentHas f ("." ++ m ++ "("))).map
    (fun m => "HTTP " ++ upperAscii m ++ "メソッド使用確認")

/-- All method detail lines, concatenated in file iteration order. -/
def api_method_details (ts : List FileRef) : List String :=
  (ts.map api_method_lines).flatten

/-- Pure part of `analyze_api` (src/main.rs lines 141-212).  The method
lines are pushed inside the per-file loop and hence precede the three
summary lines pushed after the loop. -/
def analyze_api_core (ts : List FileRef) : AnalysisResult :=
  { category := "API", status := "OK",
    details := api_method_details ts ++
      ["HTTPクライアント使用ファイル数: " ++ toString (http_client_usage ts),
       "検出されたAPIエンドポイント数: " ++ toString (api_endpoints_count ts),
       "エラーハンドリング実装箇所: " ++ toString (api_error_handling_count ts)],
    warnings := (if http_client_usage ts = 0 then ["HTTP通信の実装が確認できません"] else []) ++
      (if api_error_handling_count ts = 0 then ["APIエラーハンドリングが確認できません"] else []),
    errors := [] }

/-- Any file shows an authentication service (src/main.rs line 233). -/
def auth_service_found (ts : List FileRef) : Bool :=
  ts.any (fun f => contentHas f ("AuthService") || contentHas f ("auth.service"))

/-- Any file shows a login component (src/main.rs line 238). -/
def login_component_found (ts : List FileRef) : Bool :=
  ts.any (fun f => contentHas f ("login") || contentHas f ("Login"))

/-- Any file shows JWT or token usage (src/main.rs line 243). -/
def jwt_usage (ts : List FileRef) : Bool :=
  ts.any (fun f => contentHas f ("jwt") || contentHas f ("JWT") || contentHas f ("token"))

/-- Any file shows password validation (src/main.rs lines 248-250). -/
def password_validation (ts : List FileRef) : Bool :=
  ts.any (fun f => contentHas f ("password") &&
    (contentHas f ("validate") || contentHas f ("required")))

/-- Pure part of `analyze_authentication` (src/main.rs lines 215-302). -/
def analyze_authentication_core (ts : List FileRef) : AnalysisResult :=
  { category := "ログイン", status := "OK",
    details := ["認証サービス: " ++ implStatus (auth_service_found ts),
                "ログイン機能: " ++ implStatus (login_component_found ts),
                "JWT/トークン認証: " ++ implStatus (jwt_usage ts),
                "パスワード検証: " ++ implStatus (password_validation ts)],
    warnings := (if auth_service_found ts then [] else ["認証サービスが確認できません"]) ++
      (if login_component_found ts then [] else ["ログイン機能が確認できません"]),
    errors := [] }

/-- Any file shows a session timeout (src/main.rs line 321). -/
def session_timeout_found (ts : List FileRef) : Bool :=
  ts.any (fun f => contentHas f ("timeout") || contentHas f ("expire"))

/-- Any file shows automatic logout (src/main.rs line 325). -/
def auto_logout_found (ts : List FileRef) : Bool :=
  ts.any (fun f => contentHas f ("logout") && contentHas f ("auto"))

/-- Any file uses session storage (src/main.rs line 329). -/
def session_storage_found (ts : List FileRef) : Bool :=
  ts.any (fun f => contentHas f ("sessionStorage"))

/-- Pure part of `analyze_session_management` (src/main.rs lines 305-367). -/
def analyze_session_management_core (ts : List FileRef) : AnalysisResult :=
  { category := "セッション管理", status := "OK",
    details := ["セッションタイムアウト: " ++ implStatus (session_timeout_found ts),
                "自動ログアウト: " ++ implStatus (auto_logout_found ts),
                "セッションストレージ使用: " ++ confirmStatus (session_storage_found ts)],
    warnings := if session_timeout_found ts then []
                else ["セッションタイムアウト機能が確認できません"],
    errors := [] }

/-- Any file shows sanitization (src/main.rs line 388). -/
def sanitization_found (ts : List FileRef) : Bool :=
  ts.any (fun f => contentHas f ("sanitize") || contentHas f ("DomSanitizer"))

/-- Any file shows CSRF protection (src/main.rs line 393). -/
def csrf_protection (ts : List FileRef) : Bool :=
  ts.any (fun f => contentHas f ("csrf") || contentHas f ("CSRF"))

/-- Any file shows HTTPS enforcement (src/main.rs line 398). -/
def https_enforcement (ts : List FileRef) : Bool :=
  ts.any (fun f => contentHas f ("https") && contentHas f ("redirect"))

/-- The per-file risk warnings pushed by the loop of `analyze_security`
(src/main.rs lines 402-413), in file iteration order: the direct-HTML
warning when the file contains the innerHTML literal, then the
dynamic-code warning when it contains the eval literal. -/
def dangerous_patterns (ts : List FileRef) : List String :=
  (ts.map (fun f =>
    (if contentHas f ("innerHTML")
     then ["innerHTML使用が検出されました（XSSリスクあり）"] else []) ++
    (if contentHas f ("eval(")
     then ["eval()関数の使用が検出されました（セキュリティリスクあり）"] else []))).flatten

/-- Pure part of `analyze_security` (src/main.rs lines 370-452): the risk
warnings are appended first, then the absence warning for sanitization. -/
def analyze_security_core (ts : List FileRef) : AnalysisResult :=
  { category := "セキュリティ", status := "OK",
    details := ["入力値サニタイズ: " ++ implStatus (sanitization_found ts),
                "CSRF対策: " ++ implStatus (csrf_protection ts),
                "HTTPS強制: " ++ implStatus (https_enforcement ts)],
    warnings := dangerous_patterns ts ++
      (if sanitization_found ts then [] else ["入力値のサニタイズ処理が確認できません"]),
    errors := [] }

/-- Any file shows NgRx usage (src/main.rs line 472). -/
def ngrx_usage (ts : List FileRef) : Bool :=
  ts.any (fun f => contentHas f ("@ngrx") || contentHas f ("NgRx"))

/-- Any file shows Akita usage (src/main.rs line 476). -/
def akita_usage (ts : List FileRef) : Bool :=
  ts.any (fun f => contentHas f ("akita") || contentHas f ("Akita"))

/-- Any file shows an injectable service (src/main.rs line 480). -/
def service_usage (ts : List FileRef) : Bool :=
  ts.any (fun f => contentHas f ("@Injectable"))

/-- Any file shows Subject usage (src/main.rs line 484). -/
def subject_usage (ts : List FileRef) : Bool :=
  ts.any (fun f => contentHas f ("Subject") || contentHas f ("BehaviorSubject"))

/-- Pure part of `analyze_state_management` (src/main.rs lines 455-530). -/
def analyze_state_management_core (ts : List FileRef) : AnalysisResult :=
  { category := "状態管理", status := "OK",
    details := ["NgRx使用: " ++ confirmStatus (ngrx_usage ts),
                "Akita使用: " ++ confirmStatus (akita_usage ts),
                "サービス実装: " ++ confirmStatus (service_usage ts),
                "Subject使用: " ++ confirmStatus (subject_usage ts)],
    warnings := if ngrx_usage ts = false ∧ akita_usage ts = false ∧ subject_usage ts = false
                then ["状態管理ライブラリまたはパターンが確認できません"] else [],
    errors := [] }

/-- Any file shows a routing module (src/main.rs line 549). -/
def routing_module_found (ts : List FileRef) : Bool :=
  ts.any (fun f => contentHas f ("RouterModule") || contentHas f ("Routes"))

/-- Any file shows route guards (src/main.rs line 553). -/
def guards_found (ts : List FileRef) : Bool :=
  ts.any (fun f => contentHas f ("CanActivate") || contentHas f ("Guard"))

/-- Any file shows lazy loading (src/main.rs line 557). -/
def lazy_loading_found (ts : List FileRef) : Bool :=
  ts.any (fun f => contentHas f ("loadChildren"))

/-- Pure part of `analyze_routing` (src/main.rs lines 533-595). -/
def analyze_routing_core (ts : List FileRef) : AnalysisResult :=
  { category := "ルーティング・ナビゲーション", status := "OK",
    details := ["ルーティング設定: " ++ implStatus (routing_module_found ts),
                "ガード機能: " ++ implStatus (guards_found ts),
                "遅延読み込み: " ++ implStatus (lazy_loading_found ts)],
    warnings := if routing_module_found ts then [] else ["ルーティング設定が確認できません"],
    errors := [] }

/-- Any style file shows design tokens (src/main.rs line 615); the design
system analyzer iterates scss then css. -/
def design_tokens_found (styles : List FileRef) : Bool :=
  styles.any (fun f => contentHas f ("$primary") || contentHas f ("--primary"))

/-- Any style file shows mixin usage (src/main.rs line 619). -/
def component_library_found (styles : List FileRef) : Bool :=
  styles.any (fun f => contentHas f ("@mixin") || contentHas f ("@include"))

/-- Any style file shows theme support (src/main.rs line 623). -/
def theme_support_found (styles : List FileRef) : Bool :=
  styles.any (fun f => contentHas f ("theme") || contentHas f ("dark"))

/-- Pure part of `analyze_ui_design_system` (src/main.rs lines 598-655);
its population is the scss files followed by the css files, and it emits no
warnings. -/
def analyze_ui_design_system_core (scss css : List FileRef) : AnalysisResult :=
  { category := "UI/UX・デザインシステム", status := "OK",
    details := ["デザイントークン: " ++ implStatus (design_tokens_found (scss ++ css)),
                "コンポーネントライブラリ: " ++ implStatus (component_library_found (scss ++ css)),
                "テーマサポート: " ++ implStatus (theme_support_found (scss ++ css))],
    warnings := [],
    errors := [] }

/-- Any file shows a global error handler (src/main.rs line 674). -/
def global_error_handler (ts : List FileRef) : Bool :=
  ts.any (fun f => contentHas f ("ErrorHandler"))

/-- Any file shows an error interceptor (src/main.rs line 678). -/
def error_interceptor (ts : List FileRef) : Bool :=
  ts.any (fun f => contentHas f ("HttpInterceptor") && contentHas f ("error"))

/-- Total try-block regex matches over all readable files (occurrence
count, src/main.rs lines 683-684). -/
def try_catch_blocks (ts : List FileRef) : Nat :=
  (ts.map (fun f => match f.content with
    | some c => countTry c.data
    | none => 0)).sum

/-- Pure part of `analyze_error_handling` (src/main.rs lines 658-715). -/
def analyze_error_handling_core (ts : List FileRef) : AnalysisResult :=
  { category := "エラーハンドリング・例外処理", status := "OK",
    details := ["グローバルエラーハンドラー: " ++ implStatus (global_error_handler ts),
                "try-catchブロック数: " ++ toString (try_catch_blocks ts),
                "エラーインターセプター: " ++ implStatus (error_interceptor ts)],
    warnings := if global_error_handler ts then []
                else ["グローバルエラーハンドラーが確認できません"],
    errors := [] }

/-- Any file shows change-detection tuning (src/main.rs line 739). -/
def change_detection_found (ts : List FileRef) : Bool :=
  ts.any (fun f => contentHas f ("OnPush") || contentHas f ("ChangeDetectionStrategy"))

/-- Any file shows virtual scrolling (src/main.rs lines 743-745). -/
def virtual_scrolling_found (ts : List FileRef) : Bool :=
  ts.any (fun f => contentHas f ("cdk-virtual-scroll") || contentHas f ("VirtualScrollStrategy"))

/-- Any file shows a service worker (src/main.rs line 749). -/
def service_worker_found (ts : List FileRef) : Bool :=
  ts.any (fun f => contentHas f ("ServiceWorker"))

/-- Pure part of `analyze_performance` (src/main.rs lines 718-795). -/
def analyze_performance_core (ts : List FileRef) : AnalysisResult :=
  { category := "パフォーマンス", status := "OK",
    details := ["遅延読み込み: " ++ implStatus (lazy_loading_found ts),
                "変更検知最適化: " ++ implStatus (change_detection_found ts),
                "仮想スクロール: " ++ implStatus (virtual_scrolling_found ts),
                "サービスワーカー: " ++ implStatus (service_worker_found ts)],
    warnings := if lazy_loading_found ts then [] else ["遅延読み込みが確認できません"],
    errors := [] }

/-- Embeds `analyze_ui_screens` (src/main.rs lines 46-90): collects the four
populations in source order, then builds the report. -/
def analyze_ui_screens (p : String) (fs : FS) : Except Unit AnalysisResult := do
  let html ← find_files_with_extension p fs ("html")
  let comp ← find_files_with_extension p fs ("component.ts")
  let css ← find_files_with_extension p fs ("css")
  let scss ← find_files_with_extension p fs ("scss")
  pure (analyze_ui_screens_core html comp css scss)

/-- Embeds `analyze_data_storage` (src/main.rs lines 93-138). -/
def analyze_data_storage (p : String) (fs : FS) : Except Unit AnalysisResult :=
  (find_files_with_extension p fs ("ts")).map analyze_data_storage_core

/-- Embeds `analyze_api` (src/main.rs lines 141-212). -/
def analyze_api (p : String) (fs : FS) : Except Unit AnalysisResult :=
  (find_files_with_extension p fs ("ts")).map analyze_api_core

/-- Embeds `analyze_authentication` (src/main.rs lines 215-302). -/
def analyze_authentication (p : String) (fs : FS) : Except Unit AnalysisResult :=
  (find_files_with_extension p fs ("ts")).map analyze_authentication_core

/-- Embeds `analyze_session_management` (src/main.rs lines 305-367). -/
def analyze_session_management (p : String) (fs : FS) : Except Unit AnalysisResult :=
  (find_files_with_extension p fs ("ts")).map analyze_session_management_core

/-- Embeds `analyze_security` (src/main.rs lines 370-452). -/
def analyze_security (p : String) (fs : FS) : Except Unit AnalysisResult :=
  (find_files_with_extension p fs ("ts")).map analyze_security_core

/-- Embeds `analyze_state_management` (src/main.rs lines 455-530). -/
def analyze_state_management (p : String) (fs : FS) : Except Unit AnalysisResult :=
  (find_files_with_extension p fs ("ts")).map analyze_state_management_core

/-- Embeds `analyze_routing` (src/main.rs lines 533-595). -/
def analyze_routing (p : String) (fs : FS) : Except Unit AnalysisResult :=
  (find_files_with_extension p fs ("ts")).map analyze_routing_core

/-- Embeds `analyze_ui_design_system` (src/main.rs lines 598-655): collects scss
then css. -/
def analyze_ui_design_system (p : String) (fs : FS) : Except Unit AnalysisResult := do
  let scss ← find_files_with_extension p fs ("scss")
  let css ← find_files_with_extension p fs ("css")
  pure (analyze_ui_design_system_core scss css)

/-- Embeds `analyze_error_handling` (src/main.rs lines 658-715). -/
def analyze_error_handling (p : String) (fs : FS) : Except Unit AnalysisResult :=
  (find_files_with_extension p fs ("ts")).map analyze_error_handling_core

/-- Embeds `analyze_performance` (src/main.rs lines 718-795). -/
def analyze_performance (p : String) (fs : FS) : Except Unit AnalysisResult :=
  (find_files_with_extension p fs ("ts")).map analyze_performance_core

/-- Embeds `analyze_all` (src/main.rs lines 27-43): the eleven analyzers in the
fixed source order, each propagating a collection failure. -/
def analyze_all (p : String) (fs : FS) : Except Unit (List AnalysisResult) := do
  let r1 ← analyze_ui_screens p fs
  let r2 ← analyze_data_storage p fs
  let r3 ← analyze_api p fs
  let r4 ← analyze_authentication p fs
  let r5 ← analyze_session_management p fs
  let r6 ← analyze_security p fs
  let r7 ← analyze_state_management p fs
  let r8 ← analyze_routing p fs
  let r9 ← analyze_ui_design_system p fs
  let r10 ← analyze_error_handling p fs
  let r11 ← analyze_performance p fs
  pure [r1, r2, r3, r4, r5, r6, r7, r8, r9, r10, r11]

/-- Inversion of a successful `Except` bind. -/
theorem except_bind_ok {α β : Type} {e : Except Unit α} {f : α → Except Unit β} {b : β}
    (h : (e >>= f) = .ok b) : ∃ a, e = .ok a ∧ f a = .ok b := by
  cases e with
  | error u => simp [Bind.bind, Except.bind] at h
  | ok a => exact ⟨a, rfl, by simpa [Bind.bind, Except.bind] using h⟩

/-- Inversion of a successful `Except.map`. -/
theorem except_map_ok {α β : Type} {e : Except Unit α} {g : α → β} {b : β}
    (h : e.map g = .ok b) : ∃ a, e = .ok a ∧ b = g a := by
  cases e with
  | error u => simp [Except.map] at h
  | ok a => exact ⟨a, rfl, by simpa [Except.map] using h.symm⟩

/-- Inversion of a successful `Except` pure. -/
theorem except_pure_ok {α : Type} {a b : α} (h : (pure a : Except Unit α) = .ok b) : a = b := by
  simpa [pure, Except.pure] using h

/-- A successful run of `analyze_all` is the eleven core reports, over some
collected populations, in the fixed source order. -/
theorem analyze_all_ok {p : String} {fs : FS} {rs : List AnalysisResult}
    (h : analyze_all p fs = .ok rs) :
    ∃ html comp css scss ts1 ts2 ts3 ts4 ts5 ts6 ts7 sc2 cs2 ts8 ts9,
      rs = [analyze_ui_screens_core html comp css scss,
            analyze_data_storage_core ts1,
            analyze_api_core ts2,
            analyze_authentication_core ts3,
            analyze_session_management_core ts4,
            analyze_security_core ts5,
            analyze_state_management_core ts6,
            analyze_routing_core ts7,
            analyze_ui_design_system_core sc2 cs2,
            analyze_error_handling_core ts8,
            analyze_performance_core ts9] := by
  unfold analyze_all at h
  obtain ⟨r1, h1, h⟩ := except_bind_ok h
  obtain ⟨r2, h2, h⟩ := except_bind_ok h
  obtain ⟨r3, h3, h⟩ := except_bind_ok h
  obtain ⟨r4, h4, h⟩ := except_bind_ok h
  obtain ⟨r5, h5, h⟩ := except_bind_ok h
  obtain ⟨r6, h6, h⟩ := except_bind_ok h
  obtain ⟨r7, h7, h⟩ := except_bind_ok h
  obtain ⟨r8, h8, h⟩ := except_bind_ok h
  obtain ⟨r9, h9, h⟩ := except_bind_ok h
  obtain ⟨r10, h10, h⟩ := except_bind_ok h
  obtain ⟨r11, h11, h⟩ := except_bind_ok h
  have hrs := except_pure_ok h
  unfold analyze_ui_screens at h1
  obtain ⟨html, _, h1⟩ := except_bind_ok h1
  obtain ⟨comp, _, h1⟩ := except_bind_ok h1
  obtain ⟨css, _, h1⟩ := except_bind_ok h1
  obtain ⟨scss, _, h1⟩ := except_bind_ok h1
  have e1 := except_pure_ok h1
  unfold analyze_data_storage at h2
  obtain ⟨ts1, _, e2⟩ := except_map_ok h2
  unfold analyze_api at h3
  obtain ⟨ts2, _, e3⟩ := except_map_ok h3
  unfold analyze_authentication at h4
  obtain ⟨ts3, _, e4⟩ := except_map_ok h4
  unfold analyze_session_management at h5
  obtain ⟨ts4, _, e5⟩ := except_map_ok h5
  unfold analyze_security at h6
  obtain ⟨ts5, _, e6⟩ := except_map_ok h6
  unfold analyze_state_management at h7
  obtain ⟨ts6, _, e7⟩ := except_map_ok h7
  unfold analyze_routing at h8
  obtain ⟨ts7, _, e8⟩ := except_map_ok h8
  unfold analyze_ui_design_system at h9
  obtain ⟨sc2, _, h9⟩ := except_bind_ok h9
  obtain ⟨cs2, _, h9⟩ := except_bind_ok h9
  have e9 := except_pure_ok h9
  unfold analyze_error_handling at h10
  obtain ⟨ts8, _, e10⟩ := except_map_ok h10
  unfold analyze_performance at h11
  obtain ⟨ts9, _, e11⟩ := except_map_ok h11
  exact ⟨html, comp, css, scss, ts1, ts2, ts3, ts4, ts5, ts6, ts7, sc2, cs2, ts8, ts9,
    by rw [← hrs, ← e1, e2, e3, e4, e5, e6, e7, e8, ← e9, e10, e11]⟩

/-- The full eleven-category report produced when every collected
population is empty: zero counts, absence wording in every detail line,
and each category's absence warnings (the design-system category has
none). -/
def emptyProjectReport : List AnalysisResult :=
  [{ category := "画面", status := "OK",
     details := ["HTMLファイル数: 0", "Angularコンポーネント数: 0",
                 "スタイルファイル数: 0 (CSS: 0, SCSS: 0)"],
     warnings := ["レスポンシブデザインの実装が確認できません"], errors := [] },
   { category := "データ保持", status := "OK",
     details := ["localStorage使用箇所: 0", "sessionStorage使用箇所: 0", "IndexedDB使用箇所: 0"],
     warnings := ["データ保持機能が確認できません"], errors := [] },
   { category := "API", status := "OK",
     details := ["HTTPクライアント使用ファイル数: 0", "検出されたAPIエンドポイント数: 0",
                 "エラーハンドリング実装箇所: 0"],
     warnings := ["HTTP通信の実装が確認できません", "APIエラーハンドリングが確認できません"],
     errors := [] },
   { category := "ログイン", status := "OK",
     details := ["認証サービス: 未確認", "ログイン機能: 未確認", "JWT/トークン認証: 未確認",
                 "パスワード検証: 未確認"],
     warnings := ["認証サービスが確認できません", "ログイン機能が確認できません"], errors := [] },
   { category := "セッション管理", status := "OK",
     details := ["セッションタイムアウト: 未確認", "自動ログアウト: 未確認",
                 "セッションストレージ使用: 未確認"],
     warnings := ["セッションタイムアウト機能が確認できません"], errors := [] },
   { category := "セキュリティ", status := "OK",
     details := ["入力値サニタイズ: 未確認", "CSRF対策: 未確認", "HTTPS強制: 未確認"],
     warnings := ["入力値のサニタイズ処理が確認できません"], errors := [] },
   { category := "状態管理", status := "OK",
     details := ["NgRx使用: 未確認", "Akita使用: 未確認", "サービス実装: 未確認",
                 "Subject使用: 未確認"],
     warnings := ["状態管理ライブラリまたはパターンが確認できません"], errors := [] },
   { category := "ルーティング・ナビゲーション", status := "OK",
     details := ["ルーティング設定: 未確認", "ガード機能: 未確認", "遅延読み込み: 未確認"],
     warnings := ["ルーティング設定が確認できません"], errors := [] },
   { category := "UI/UX・デザインシステム", status := "OK",
     details := ["デザイントークン: 未確認", "コンポーネントライブラリ: 未確認",
                 "テーマサポート: 未確認"],
     warnings := [], errors := [] },
   { category := "エラーハンドリング・例外処理", status := "OK",
     details := ["グローバルエラーハンドラー: 未確認", "try-catchブロック数: 0",
                 "エラーインターセプター: 未確認"],
     warnings := ["グローバルエラーハンドラーが確認できません"], errors := [] },
   { category := "パフォーマンス", status := "OK",
     details := ["遅延読み込み: 未確認", "変更検知最適化: 未確認", "仮想スクロール: 未確認",
                 "サービスワーカー: 未確認"],
     warnings := ["遅延読み込みが確認できません"], errors := [] }]

/-- C2: whenever `analyze_all` succeeds, it returns exactly eleven reports,
in the fixed order UI screens (画面), data storage (データ保持), API,
authentication (ログイン), session management (セッション管理), security
(セキュリティ), state management (状態管理), routing
(ルーティング・ナビゲーション), UI/design system (UI/UX・デザインシステム),
error handling (エラーハンドリング・例外処理), performance (パフォーマンス),
regardless of project content. -/
theorem c2_eleven_reports_fixed_order (p : String) (fs : FS) (rs : List AnalysisResult)
    (h : analyze_all p fs = .ok rs) :
    rs.length = 11 ∧
    rs.map AnalysisResult.category =
      ["画面", "データ保持", "API", "ログイン", "セッション管理", "セキュリティ",
       "状態管理", "ルーティング・ナビゲーション", "UI/UX・デザインシステム",
       "エラーハンドリング・例外処理", "パフォーマンス"] := by
  obtain ⟨a, b, c, d, e, f, g, h1, i, j, k, l, m, n, o, hrs⟩ := analyze_all_ok h
  subst hrs
  exact ⟨rfl, rfl⟩

/-- Witness for C2 at a concrete input: the run on a nonexistent root
succeeds and exhibits the eleven fixed categories. -/
theorem c2_eleven_reports_fixed_order_witness :
    emptyProjectReport.length = 11 ∧
    emptyProjectReport.map AnalysisResult.category =
      ["画面", "データ保持", "API", "ログイン", "セッション管理", "セキュリティ",
       "状態管理", "ルーティング・ナビゲーション", "UI/UX・デザインシステム",
       "エラーハンドリング・例外処理", "パフォーマンス"] :=
  c2_eleven_reports_fixed_order "p" .missing emptyProjectReport rfl

/-- C4: every report of any successful run has status OK and an empty
errors list, for every input tree. -/
theorem c4_status_ok_errors_empty (p : String) (fs : FS) (rs : List AnalysisResult)
    (h : analyze_all p fs = .ok rs) :
    ∀ r ∈ rs, r.status = "OK" ∧ r.errors = [] := by
  obtain ⟨a, b, c, d, e, f, g, h1, i, j, k, l, m, n, o, hrs⟩ := analyze_all_ok h
  subst hrs
  intro r hr
  simp only [List.mem_cons, List.not_mem_nil, or_false] at hr
  rcases hr with h'|h'|h'|h'|h'|h'|h'|h'|h'|h'|h' <;> subst h' <;> exact ⟨rfl, rfl⟩

/-- Witness for C4 at a concrete input: the UI-screens report of the run on
a nonexistent root has status OK and no errors. -/
theorem c4_status_ok_errors_empty_witness :
    (analyze_ui_screens_core [] [] [] []).status = "OK" ∧
    (analyze_ui_screens_core [] [] [] []).errors = [] :=
  c4_status_ok_errors_empty "p" .missing emptyProjectReport rfl
    (analyze_ui_screens_core [] [] [] []) (by decide)

/-- C9: when the root project path does not exist, or is not a directory,
every collection returns an empty population without error, so
`analyze_all` succeeds with the full eleven-category report of zero counts
and the corresponding absence warnings. -/
theorem c9_missing_root_full_report (p name ext : String) (c : Option String) :
    find_files_with_extension p .missing ext = .ok [] ∧
    find_files_with_extension p (.file name c) ext = .ok [] ∧
    analyze_all p .missing = .ok emptyProjectReport ∧
    analyze_all p (.file name c) = .ok emptyProjectReport :=
  ⟨rfl, rfl, rfl, rfl⟩

/-- A root that lists fine but holds a nested directory (not skipped by
name) whose `read_dir` fails. -/
def nestedUnreadableTree : FS :=
  .dir true (.dir ("sub") true (.dir ("bad") false .nil .nil) .nil)

/-- C1 counterexample: with the nested unreadable directory two levels
below the root, the collection — and with it the whole run — returns an
error instead of treating the subtree as empty; the claim that only a
root-level read error propagates is false on the code. -/
theorem c1_counterexample :
    find_files_with_extension "p" nestedUnreadableTree "html" = .error () ∧
    analyze_all "p" nestedUnreadableTree = .error () :=
  ⟨rfl, rfl⟩

/-- An unlistable, non-skipped directory entry makes the whole directory
listing of `find_files_recursive` fail, wherever it sits among its
siblings. -/
theorem find_files_recursive_unreadable (d ext name : String) (es es2 : FSEntries) :
    ∀ es1 : FSEntries, skipDirName name = false →
      find_files_recursive d ext (es1.append (FSEntries.dir name false es es2)) = .error ()
  | .nil, h => by
      simp [FSEntries.append, find_files_recursive, h]
  | .file nm c es1, h => by
      have ih := find_files_recursive_unreadable d ext name es es2 es1 h
      simp [FSEntries.append, find_files_recursive, ih, Bind.bind, Except.bind]
  | .dir nm lb' ents es1, h => by
      have ih := find_files_recursive_unreadable d ext name es es2 es1 h
      by_cases hs : skipDirName nm = true
      · simp [FSEntries.append, find_files_recursive, hs, ih]
      · cases lb' with
        | false => simp [FSEntries.append, find_files_recursive, hs]
        | true =>
          cases hch : find_files_recursive (d ++ "/" ++ nm) ext ents with
          | error u =>
            simp [FSEntries.append, find_files_recursive, hs, hch, Bind.bind, Except.bind]
          | ok l =>
            simp [FSEntries.append, find_files_recursive, hs, hch, ih, Bind.bind, Except.bind]

/-- Any collection error aborts `analyze_all` (the first analyzer's first
collection runs before anything else, and every analyzer propagates). -/
theorem analyze_all_error_of_find_error (p : String) (fs : FS)
    (h : find_files_with_extension p fs ("html") = .error ()) :
    analyze_all p fs = .error () := by
  unfold analyze_all analyze_ui_screens
  simp [h, Bind.bind, Except.bind]

/-- C1 (amended): a nested directory that cannot be listed during
traversal is NOT treated as contributing zero files — unless its name makes
it skipped, the listing error propagates out of `find_files_recursive`
(first conjunct: an unreadable directory anywhere among the entries of any
directory of the tree fails the whole collection), and any collection
error aborts the whole `analyze_all` run (second conjunct).  Only a root
path that does not exist or is not a directory degrades silently. -/
theorem c1_nested_unreadable_aborts :
    (∀ (d ext name : String) (es es1 es2 : FSEntries),
       skipDirName name = false →
       find_files_recursive d ext (es1.append (FSEntries.dir name false es es2)) = .error ()) ∧
    (∀ (p : String) (fs : FS),
       find_files_with_extension p fs ("html") = .error () →
       analyze_all p fs = .error ()) :=
  ⟨fun d ext name es es1 es2 h => find_files_recursive_unreadable d ext name es es2 es1 h,
   fun p fs h => analyze_all_error_of_find_error p fs h⟩

/-- Witness for C1 (amended) at concrete inputs. -/
theorem c1_nested_unreadable_aborts_witness :
    find_files_recursive "p" "html"
      (FSEntries.nil.append (FSEntries.dir "bad" false .nil .nil)) = .error () ∧
    analyze_all "p" nestedUnreadableTree = .error () :=
  ⟨c1_nested_unreadable_aborts.1 "p" "html" "bad" .nil .nil .nil rfl,
   c1_nested_unreadable_aborts.2 "p" nestedUnreadableTree rfl⟩

/-- A directory entry whose name is skipped (dot-prefixed or the
dependency-cache name) contributes nothing to the listing: the collection
over entries containing it equals the collection with the whole entry —
and hence its entire subtree — removed. -/
theorem find_files_recursive_skip (d ext name : String) (lb : Bool) (es es2 : FSEntries) :
    ∀ es1 : FSEntries, skipDirName name = true →
      find_files_recursive d ext (es1.append (FSEntries.dir name lb es es2)) =
      find_files_recursive d ext (es1.append es2)
  | .nil, h => by
      simp [FSEntries.append, find_files_recursive, h]
  | .file nm c es1, h => by
      have ih := find_files_recursive_skip d ext name lb es es2 es1 h
      simp only [FSEntries.append, find_files_recursive]
      rw [ih]
  | .dir nm lb' ents es1, h => by
      have ih := find_files_recursive_skip d ext name lb es es2 es1 h
      simp only [FSEntries.append, find_files_recursive]
      rw [ih]

/-- C8: a file anywhere under a dot-prefixed directory or under the
dependency-cache directory is never included in any collected population,
whatever its name: removing such a directory entry (with its whole subtree
`es`, which may contain files matching the target) leaves every collection
result unchanged, at any position among the siblings (`es1`, `es2`) and at
any directory `d` of any tree. -/
theorem c8_excluded_dirs (d ext name : String) (lb : Bool) (es es1 es2 : FSEntries)
    (h : skipDirName name = true) :
    find_files_recursive d ext (es1.append (FSEntries.dir name lb es es2)) =
    find_files_recursive d ext (es1.append es2) :=
  find_files_recursive_skip d ext name lb es es2 es1 h

/-- Witness for C8 at a concrete input: a matching file inside the
dependency-cache directory is not collected. -/
theorem c8_excluded_dirs_witness :
    find_files_recursive "p" "ts"
      (FSEntries.nil.append
        (FSEntries.dir "node_modules" true (FSEntries.file "a.ts" (some "x") .nil) .nil)) =
    find_files_recursive "p" "ts" (FSEntries.nil.append .nil) :=
  c8_excluded_dirs "p" "ts" "node_modules" true (FSEntries.file "a.ts" (some "x") .nil)
    .nil .nil rfl

/-- Anything `List.any` computes is invariant under permutation of the list. -/
theorem perm_any {α : Type} {l₁ l₂ : List α} (h : l₁.Perm l₂) (p : α → Bool) :
    l₁.any p = l₂.any p := by
  apply Bool.eq_iff_iff.mpr
  simp only [List.any_eq_true]
  exact ⟨fun ⟨x, hx, hp⟩ => ⟨x, h.mem_iff.mp hx, hp⟩,
         fun ⟨x, hx, hp⟩ => ⟨x, h.mem_iff.mpr hx, hp⟩⟩

/-- The UI-screens details do not depend on file order. -/
theorem ui_details_perm {a a2 b b2 c c2 d d2 : List FileRef}
    (ha : a.Perm a2) (hb : b.Perm b2) (hc : c.Perm c2) (hd : d.Perm d2) :
    (analyze_ui_screens_core a b c d).details =
      (analyze_ui_screens_core a2 b2 c2 d2).details := by
  simp [analyze_ui_screens_core, check_responsive_design, ha.length_eq, hb.length_eq,
        hc.length_eq, hd.length_eq, perm_any (hc.append hd)]

/-- The data-storage details do not depend on file order. -/
theorem ds_details_perm {ts ts2 : List FileRef} (h : ts.Perm ts2) :
    (analyze_data_storage_core ts).details = (analyze_data_storage_core ts2).details := by
  simp [analyze_data_storage_core, local_storage_usage, session_storage_usage,
        indexed_db_usage, h.countP_eq]

/-- The authentication details do not depend on file order. -/
theorem auth_details_perm {ts ts2 : List FileRef} (h : ts.Perm ts2) :
    (analyze_authentication_core ts).details = (analyze_authentication_core ts2).details := by
  simp [analyze_authentication_core, auth_service_found, login_component_found,
        jwt_usage, password_validation, perm_any h]

/-- The session-management details do not depend on file order. -/
theorem session_details_perm {ts ts2 : List FileRef} (h : ts.Perm ts2) :
    (analyze_session_management_core ts).details =
      (analyze_session_management_core ts2).details := by
  simp [analyze_session_management_core, session_timeout_found, auto_logout_found,
        session_storage_found, perm_any h]

/-- The security details do not depend on file order. -/
theorem security_details_perm {ts ts2 : List FileRef} (h : ts.Perm ts2) :
    (analyze_security_core ts).details = (analyze_security_core ts2).details := by
  simp [analyze_security_core, sanitization_found, csrf_protection, https_enforcement,
        perm_any h]

/-- The state-management details do not depend on file order. -/
theorem state_details_perm {ts ts2 : List FileRef} (h : ts.Perm ts2) :
    (analyze_state_management_core ts).details =
      (analyze_state_management_core ts2).details := by
  simp [analyze_state_management_core, ngrx_usage, akita_usage, service_usage,
        subject_usage, perm_any h]

/-- The routing details do not depend on file order. -/
theorem routing_details_perm {ts ts2 : List FileRef} (h : ts.Perm ts2) :
    (analyze_routing_core ts).details = (analyze_routing_core ts2).details := by
  simp [analyze_routing_core, routing_module_found, guards_found, lazy_loading_found,
        perm_any h]

/-- The design-system details do not depend on file order. -/
theorem design_details_perm {s s2 c c2 : List FileRef} (hs : s.Perm s2) (hc : c.Perm c2) :
    (analyze_ui_design_system_core s c).details =
      (analyze_ui_design_system_core s2 c2).details := by
  simp [analyze_ui_design_system_core, design_tokens_found, component_library_found,
        theme_support_found, perm_any (hs.append hc)]

/-- The error-handling details do not depend on file order. -/
theorem errh_details_perm {ts ts2 : List FileRef} (h : ts.Perm ts2) :
    (analyze_error_handling_core ts).details = (analyze_error_handling_core ts2).details := by
  have hsum : try_catch_blocks ts = try_catch_blocks ts2 := (h.map _).sum_eq
  simp [analyze_error_handling_core, global_error_handler, error_interceptor,
        perm_any h, hsum]

/-- The performance details do not depend on file order. -/
theorem perf_details_perm {ts ts2 : List FileRef} (h : ts.Perm ts2) :
    (analyze_performance_core ts).details = (analyze_performance_core ts2).details := by
  simp [analyze_performance_core, lazy_loading_found, change_detection_found,
        virtual_scrolling_found, service_worker_found, perm_any h]

/-- The three API summary counts do not depend on file order. -/
theorem api_counts_perm {ts ts2 : List FileRef} (h : ts.Perm ts2) :
    http_client_usage ts = http_client_usage ts2 ∧
    api_endpoints_count ts = api_endpoints_count ts2 ∧
    api_error_handling_count ts = api_error_handling_count ts2 :=
  ⟨h.countP_eq _, (h.map _).sum_eq, h.countP_eq _⟩

/-- C3 (amended): in every category except API the `details` list is
invariant under permutation of the collected population(s), so its order
is fixed by the check evaluation order alone (first ten conjuncts).  In
the API category the three summary lines come last, in check order, and
are permutation-invariant (last conjunct), but they are preceded by the
HTTP-method detail lines, which are emitted per file during the loop: the
lines of the first file come before the lines of the second, so their
order follows file iteration order (eleventh and twelfth conjuncts). -/
theorem c3_details_check_order :
    (∀ a a2 b b2 c c2 d d2 : List FileRef,
        a.Perm a2 → b.Perm b2 → c.Perm c2 → d.Perm d2 →
        (analyze_ui_screens_core a b c d).details =
          (analyze_ui_screens_core a2 b2 c2 d2).details) ∧
    (∀ ts ts2 : List FileRef, ts.Perm ts2 →
        (analyze_data_storage_core ts).details = (analyze_data_storage_core ts2).details) ∧
    (∀ ts ts2 : List FileRef, ts.Perm ts2 →
        (analyze_authentication_core ts).details =
          (analyze_authentication_core ts2).details) ∧
    (∀ ts ts2 : List FileRef, ts.Perm ts2 →
        (analyze_session_management_core ts).details =
          (analyze_session_management_core ts2).details) ∧
    (∀ ts ts2 : List FileRef, ts.Perm ts2 →
        (analyze_security_core ts).details = (analyze_security_core ts2).details) ∧
    (∀ ts ts2 : List FileRef, ts.Perm ts2 →
        (analyze_state_management_core ts).details =
          (analyze_state_management_core ts2).details) ∧
    (∀ ts ts2 : List FileRef, ts.Perm ts2 →
        (analyze_routing_core ts).details = (analyze_routing_core ts2).details) ∧
    (∀ s s2 c c2 : List FileRef, s.Perm s2 → c.Perm c2 →
        (analyze_ui_design_system_core s c).details =
          (analyze_ui_design_system_core s2 c2).details) ∧
    (∀ ts ts2 : List FileRef, ts.Perm ts2 →
        (analyze_error_handling_core ts).details =
          (analyze_error_handling_core ts2).details) ∧
    (∀ ts ts2 : List FileRef, ts.Perm ts2 →
        (analyze_performance_core ts).details = (analyze_performance_core ts2).details) ∧
    (∀ ts : List FileRef,
        (analyze_api_core ts).details = api_method_details ts ++
          ["HTTPクライアント使用ファイル数: " ++ toString (http_client_usage ts),
           "検出されたAPIエンドポイント数: " ++ toString (api_endpoints_count ts),
           "エラーハンドリング実装箇所: " ++ toString (api_error_handling_count ts)]) ∧
    (∀ (f : FileRef) (ts : List FileRef),
        api_method_details (f :: ts) = api_method_lines f ++ api_method_details ts) ∧
    (∀ ts ts2 : List FileRef, ts.Perm ts2 →
        http_client_usage ts = http_client_usage ts2 ∧
        api_endpoints_count ts = api_endpoints_count ts2 ∧
        api_error_handling_count ts = api_error_handling_count ts2) :=
  ⟨fun _ _ _ _ _ _ _ _ ha hb hc hd => ui_details_perm ha hb hc hd,
   fun _ _ h => ds_details_perm h,
   fun _ _ h => auth_details_perm h,
   fun _ _ h => session_details_perm h,
   fun _ _ h => security_details_perm h,
   fun _ _ h => state_details_perm h,
   fun _ _ h => routing_details_perm h,
   fun _ _ _ _ hs hc => design_details_perm hs hc,
   fun _ _ h => errh_details_perm h,
   fun _ _ h => perf_details_perm h,
   fun _ => rfl,
   fun _ _ => rfl,
   fun _ _ h => api_counts_perm h⟩

/-- The project tree of the C3 counterexample, and the same tree with the
two files listed in the opposite order. -/
def apiTreeA : FS :=
  .dir true (.file ("a.ts") (some ("x.get(")) (.file ("b.ts") (some ("x.post(")) .nil))

/-- Sibling order swapped relative to `apiTreeA`. -/
def apiTreeB : FS :=
  .dir true (.file ("b.ts") (some ("x.post(")) (.file ("a.ts") (some ("x.get(")) .nil))

/-- The population `apiTreeA` yields. -/
def apiPopA : List FileRef := [⟨"p/a.ts", some ("x.get(")⟩, ⟨"p/b.ts", some ("x.post(")⟩]

/-- The population `apiTreeB` yields: the same files, opposite order. -/
def apiPopB : List FileRef := [⟨"p/b.ts", some ("x.post(")⟩, ⟨"p/a.ts", some ("x.get(")⟩]

/-- C3 counterexample: two trees holding the same files (the collected
populations are permutations of each other) produce different API
`details` lists — the claim that detail order is determined by check
evaluation order and not by file iteration order fails for the API
category's per-file HTTP-method lines. -/
theorem c3_counterexample :
    find_files_with_extension "p" apiTreeA "ts" = .ok apiPopA ∧
    find_files_with_extension "p" apiTreeB "ts" = .ok apiPopB ∧
    apiPopA.Perm apiPopB ∧
    (analyze_api_core apiPopA).details ≠ (analyze_api_core apiPopB).details := by
  refine ⟨rfl, rfl, List.Perm.swap _ _ _, ?_⟩
  decide

/-- Witness for C3 (amended) at a concrete input: the data-storage details
agree on two concrete permuted populations. -/
theorem c3_details_check_order_witness :
    (analyze_data_storage_core apiPopA).details =
      (analyze_data_storage_core apiPopB).details :=
  c3_details_check_order.2.1 apiPopA apiPopB (List.Perm.swap _ _ _)

/-- The warnings of the security report: first the per-file risk warnings,
then the sanitization absence warning. -/
theorem security_warnings_eq (ts : List FileRef) :
    (analyze_security_core ts).warnings =
      dangerous_patterns ts ++
        (if sanitization_found ts then [] else ["入力値のサニタイズ処理が確認できません"]) := rfl

/-- C5: every readable file of the security population whose content
contains the innerHTML literal puts the XSS-risk warning string into the
security report's warnings, independently of anything else in that file or
in the other files. -/
theorem c5_innerhtml_warning (ts : List FileRef) (f : FileRef) (c : String)
    (hmem : f ∈ ts) (hc : f.content = some c)
    (hinner : strContains c ("innerHTML") = true) :
    "innerHTML使用が検出されました（XSSリスクあり）" ∈ (analyze_security_core ts).warnings := by
  have hch : contentHas f ("innerHTML") = true := by simp [contentHas, hc, hinner]
  rw [security_warnings_eq]
  apply List.mem_append_left
  unfold dangerous_patterns
  refine List.mem_flatten.mpr
    ⟨(if contentHas f ("innerHTML")
       then ["innerHTML使用が検出されました（XSSリスクあり）"] else []) ++
      (if contentHas f ("eval(")
       then ["eval()関数の使用が検出されました（セキュリティリスクあり）"] else []),
     List.mem_map_of_mem _ hmem, ?_⟩
  simp [hch]

/-- Witness for C5 at a concrete input. -/
theorem c5_innerhtml_warning_witness :
    "innerHTML使用が検出されました（XSSリスクあり）" ∈
      (analyze_security_core [⟨"p/a.ts", some ("xinnerHTMLy")⟩]).warnings :=
  c5_innerhtml_warning [⟨"p/a.ts", some ("xinnerHTMLy")⟩] ⟨"p/a.ts", some ("xinnerHTMLy")⟩
    ("xinnerHTMLy") (by decide) rfl (by decide)

/-- Non-overlapping occurrence count of a (nonempty) pattern in a
character list (structural fuel, initialized to the list length), used to
state the claims' counting hypotheses such as a content containing a
literal exactly twice. -/
def occCountAux (pat : List Char) : Nat → List Char → Nat
  | 0, _ => 0
  | _ + 1, [] => 0
  | fuel + 1, c :: rest =>
    if pat.isPrefixOf (c :: rest) then
      occCountAux pat fuel (List.drop (pat.length - 1) rest) + 1
    else occCountAux pat fuel rest

/-- Non-overlapping occurrence count of a pattern. -/
def occCount (pat l : List Char) : Nat := occCountAux pat l.length l

/-- At least one occurrence implies the Rust containment scan succeeds. -/
theorem contains_of_occCountAux_pos (pat : List Char) :
    ∀ (fuel : Nat) (l : List Char), 0 < occCountAux pat fuel l →
      strContains.go pat l = true
  | 0, l, h => by simp [occCountAux] at h
  | fuel + 1, [], h => by simp [occCountAux] at h
  | fuel + 1, c :: rest, h => by
      by_cases hp : pat.isPrefixOf (c :: rest) = true
      · simp [strContains.go, hp]
      · have hlt : 0 < occCountAux pat fuel rest := by
          simpa [occCountAux, hp] using h
        have := contains_of_occCountAux_pos pat fuel rest hlt
        simp [strContains.go, this]

/-- C6: presence-count checks are file-scoped while occurrence-count
checks are occurrence-scoped.  First conjunct: a readable file whose
content holds any positive number of occurrences of the local-storage
literal contributes exactly 1 to the data-storage localStorage count.
Second conjunct: a readable file contributes exactly its number of
try-block regex matches to the error-handling try-block count (which is
therefore the sum of the per-file match counts over all readable files). -/
theorem c6_counting_semantics :
    (∀ (ts : List FileRef) (f : FileRef) (c : String),
        f.content = some c → 0 < occCount ("localStorage").data c.data →
        local_storage_usage (f :: ts) = local_storage_usage ts + 1) ∧
    (∀ (ts : List FileRef) (f : FileRef) (c : String),
        f.content = some c →
        try_catch_blocks (f :: ts) = try_catch_blocks ts + countTry c.data) := by
  constructor
  · intro ts f c hc hocc
    have hcontains : contentHas f ("localStorage") = true := by
      have := contains_of_occCountAux_pos ("localStorage").data c.data.length c.data hocc
      simp [contentHas, hc, strContains, this]
    exact List.countP_cons_of_pos _ ts hcontains
  · intro ts f c hc
    simp [try_catch_blocks, hc, Nat.add_comm]

/-- Witness for C6 at a concrete input: a content holding the
local-storage literal exactly twice and two try-block matches contributes
1 to the former count and 2 to the latter. -/
theorem c6_counting_semantics_witness :
    occCount ("localStorage").data
      ("localStorage try \x7b localStorage try \x7b").data = 2 ∧
    countTry ("localStorage try \x7b localStorage try \x7b").data = 2 ∧
    local_storage_usage
      [⟨"p/a.ts", some ("localStorage try \x7b localStorage try \x7b")⟩] =
      local_storage_usage [] + 1 ∧
    try_catch_blocks
      [⟨"p/a.ts", some ("localStorage try \x7b localStorage try \x7b")⟩] =
      try_catch_blocks [] +
        countTry ("localStorage try \x7b localStorage try \x7b").data :=
  ⟨by decide, by decide,
   c6_counting_semantics.1 [] ⟨"p/a.ts", some ("localStorage try \x7b localStorage try \x7b")⟩
     ("localStorage try \x7b localStorage try \x7b") rfl (by decide),
   c6_counting_semantics.2 [] ⟨"p/a.ts", some ("localStorage try \x7b localStorage try \x7b")⟩
     ("localStorage try \x7b localStorage try \x7b") rfl⟩


/-- A matching file entry's path is in the collected population whenever
the collection over its directory's entries succeeds, wherever the entry
sits among its siblings. -/
theorem find_files_mem (d ext name : String) (c : Option String) (es2 : FSEntries)
    (hm : fileMatches (d ++ "/" ++ name) name ext = true) :
    ∀ (es1 : FSEntries) (l : List FileRef),
      find_files_recursive d ext (es1.append (FSEntries.file name c es2)) = .ok l →
      (d ++ "/" ++ name) ∈ l.map FileRef.path
  | .nil, l, h => by
      simp only [FSEntries.append, find_files_recursive] at h
      cases hr : find_files_recursive d ext es2 with
      | error u => rw [hr] at h; simp [Bind.bind, Except.bind] at h
      | ok there =>
        rw [hr] at h
        simp only [Bind.bind, Except.bind, pure, Except.pure, hm, if_true,
          Except.ok.injEq] at h
        subst h
        simp
  | .file nm c' es1, l, h => by
      simp only [FSEntries.append, find_files_recursive] at h
      cases hr : find_files_recursive d ext (es1.append (FSEntries.file name c es2)) with
      | error u => rw [hr] at h; simp [Bind.bind, Except.bind] at h
      | ok there =>
        have ih := find_files_mem d ext name c es2 hm es1 there hr
        rw [hr] at h
        simp only [Bind.bind, Except.bind, pure, Except.pure, Except.ok.injEq] at h
        subst h
        split
        · simp only [List.map_cons]
          exact List.mem_cons_of_mem _ ih
        · exact ih
  | .dir nm lb' ents es1, l, h => by
      simp only [FSEntries.append, find_files_recursive] at h
      by_cases hs : skipDirName nm = true
      · rw [if_pos hs] at h
        exact find_files_mem d ext name c es2 hm es1 l h
      · rw [if_neg hs] at h
        cases lb' with
        | false => simp at h
        | true =>
          simp only [if_true] at h
          cases hh : find_files_recursive (d ++ "/" ++ nm) ext ents with
          | error u => rw [hh] at h; simp [Bind.bind, Except.bind] at h
          | ok here =>
            cases hr : find_files_recursive d ext (es1.append (FSEntries.file name c es2)) with
            | error u => rw [hh, hr] at h; simp [Bind.bind, Except.bind] at h
            | ok there =>
              have ih := find_files_mem d ext name c es2 hm es1 there hr
              rw [hh, hr] at h
              simp only [Bind.bind, Except.bind, pure, Except.pure, Except.ok.injEq] at h
              subst h
              rw [List.map_append]
              exact List.mem_append_right _ ih

/-- A non-matching file entry contributes nothing: removing it leaves the
collection unchanged. -/
theorem find_files_skip_file (d ext name : String) (c : Option String) (es2 : FSEntries)
    (hm : fileMatches (d ++ "/" ++ name) name ext = false) :
    ∀ es1 : FSEntries,
      find_files_recursive d ext (es1.append (FSEntries.file name c es2)) =
      find_files_recursive d ext (es1.append es2)
  | .nil => by
      simp only [FSEntries.append, find_files_recursive]
      cases hr : find_files_recursive d ext es2 <;>
        simp [Bind.bind, Except.bind, pure, Except.pure, hm]
  | .file nm c' es1 => by
      have ih := find_files_skip_file d ext name c es2 hm es1
      simp only [FSEntries.append, find_files_recursive]
      rw [ih]
  | .dir nm lb' ents es1 => by
      have ih := find_files_skip_file d ext name c es2 hm es1
      simp only [FSEntries.append, find_files_recursive]
      rw [ih]

/-- The compound-suffix population accepts the compound-named file: its
plain extension differs from the target, but the full path ends with the
dotted compound suffix. -/
theorem fileMatches_compound_compound (d : String) :
    fileMatches (d ++ "/" ++ "x.component.ts") "x.component.ts" "component.ts" = true := by
  have hext : rustExtension ("x.component.ts").data = some (['t', 's']) := by decide
  unfold fileMatches
  simp only [hext, Bool.or_eq_true]
  right
  rw [List.isSuffixOf_iff_suffix]
  have h2 : (d ++ "/" ++ "x.component.ts") = (d ++ "/x") ++ ".component.ts" := by
    rw [String.append_assoc, String.append_assoc]
    congr 1
  rw [h2, String.data_append]
  exact List.suffix_append _ _

/-- The plain population accepts the compound-named file by extension
equality. -/
theorem fileMatches_compound_plain (d : String) :
    fileMatches (d ++ "/" ++ "x.component.ts") "x.component.ts" "ts" = true := by
  have hext : rustExtension ("x.component.ts").data = some (['t', 's']) := by decide
  unfold fileMatches
  simp only [hext, Bool.or_eq_true]
  left
  decide

/-- The plain population accepts the plainly named file. -/
theorem fileMatches_plain_plain (d : String) :
    fileMatches (d ++ "/" ++ "x.ts") "x.ts" "ts" = true := by
  have hext : rustExtension ("x.ts").data = some (['t', 's']) := by decide
  unfold fileMatches
  simp only [hext, Bool.or_eq_true]
  left
  decide

/-- The compound-suffix population rejects the plainly named file: neither
the extension equals the compound target nor can the path end with the
dotted compound suffix. -/
theorem fileMatches_plain_compound (d : String) :
    fileMatches (d ++ "/" ++ "x.ts") "x.ts" "component.ts" = false := by
  have hext : rustExtension ("x.ts").data = some (['t', 's']) := by decide
  unfold fileMatches
  simp only [hext]
  apply Bool.or_eq_false_iff.mpr
  refine ⟨by decide, ?_⟩
  apply Bool.eq_false_iff.mpr
  intro hcontra
  rw [List.isSuffixOf_iff_suffix] at hcontra
  have h5 : ("/x.ts").data <:+ (d ++ "/" ++ "x.ts").data := by
    have h2 : (d ++ "/" ++ "x.ts") = d ++ "/x.ts" := by
      rw [String.append_assoc]
      congr 1
    rw [h2, String.data_append]
    exact List.suffix_append _ _
  have h6 := List.suffix_of_suffix_length_le h5 hcontra (by decide)
  rw [← List.isSuffixOf_iff_suffix] at h6
  exact absurd h6 (by decide)

/-- C7: suffix sensitivity of the collector.  In any tree (any directory
path `d`, any surrounding sibling listings `es1`, `es2`, any content `c`):
a file named x.component.ts is collected both for target component.ts and
for target ts (conjuncts 1 and 2: whenever the listing succeeds, its path
is in the population); a file named x.ts is collected for target ts
(conjunct 3) but never for target component.ts (conjunct 4: removing it
leaves that population unchanged).  Conjuncts 5-8 state the underlying
match test outcomes. -/
theorem c7_suffix_matching (d : String) (c : Option String) (es1 es2 : FSEntries) :
    (∀ l : List FileRef,
        find_files_recursive d "component.ts"
          (es1.append (FSEntries.file "x.component.ts" c es2)) = .ok l →
        (d ++ "/" ++ "x.component.ts") ∈ l.map FileRef.path) ∧
    (∀ l : List FileRef,
        find_files_recursive d "ts"
          (es1.append (FSEntries.file "x.component.ts" c es2)) = .ok l →
        (d ++ "/" ++ "x.component.ts") ∈ l.map FileRef.path) ∧
    (∀ l : List FileRef,
        find_files_recursive d "ts"
          (es1.append (FSEntries.file "x.ts" c es2)) = .ok l →
        (d ++ "/" ++ "x.ts") ∈ l.map FileRef.path) ∧
    find_files_recursive d "component.ts" (es1.append (FSEntries.file "x.ts" c es2)) =
      find_files_recursive d "component.ts" (es1.append es2) ∧
    fileMatches (d ++ "/" ++ "x.component.ts") "x.component.ts" "component.ts" = true ∧
    fileMatches (d ++ "/" ++ "x.component.ts") "x.component.ts" "ts" = true ∧
    fileMatches (d ++ "/" ++ "x.ts") "x.ts" "ts" = true ∧
    fileMatches (d ++ "/" ++ "x.ts") "x.ts" "component.ts" = false :=
  ⟨fun l h => find_files_mem d "component.ts" "x.component.ts" c es2
      (fileMatches_compound_compound d) es1 l h,
   fun l h => find_files_mem d "ts" "x.component.ts" c es2
      (fileMatches_compound_plain d) es1 l h,
   fun l h => find_files_mem d "ts" "x.ts" c es2 (fileMatches_plain_plain d) es1 l h,
   find_files_skip_file d "component.ts" "x.ts" c es2 (fileMatches_plain_compound d) es1,
   fileMatches_compound_compound d, fileMatches_compound_plain d,
   fileMatches_plain_plain d, fileMatches_plain_compound d⟩

/-- Witness for C7 at a concrete input. -/
theorem c7_suffix_matching_witness :
    ("p" ++ "/" ++ "x.component.ts") ∈
      ([⟨"p" ++ "/" ++ "x.component.ts", some ""⟩] : List FileRef).map FileRef.path :=
  (c7_suffix_matching "p" (some "") .nil .nil).1
    [⟨"p" ++ "/" ++ "x.component.ts", some ""⟩] rfl

/-- A UTF-8 continuation byte. -/
def isCont (b : Nat) : Bool := 128 ≤ b && b ≤ 191

/-- UTF-8 validity of a byte sequence (bytes as `Nat` below 256): the
standard leader/continuation table, with the restricted second-byte ranges
after the 224, 237, 240 and 244 leaders that exclude overlong encodings,
surrogates and values beyond the last scalar.  `OsStr::to_str` returns
`Some` exactly on valid sequences, and `to_str().unwrap()` panics exactly
on invalid ones. -/
def validUtf8 : List Nat → Bool
  | [] => true
  | b :: rest =>
    if b ≤ 127 then validUtf8 rest
    else if 194 ≤ b ∧ b ≤ 223 then
      match rest with
      | c1 :: r => isCont c1 && validUtf8 r
      | [] => false
    else if b = 224 then
      match rest with
      | c1 :: c2 :: r => (160 ≤ c1 && c1 ≤ 191) && isCont c2 && validUtf8 r
      | _ => false
    else if (225 ≤ b ∧ b ≤ 236) ∨ b = 238 ∨ b = 239 then
      match rest with
      | c1 :: c2 :: r => isCont c1 && isCont c2 && validUtf8 r
      | _ => false
    else if b = 237 then
      match rest with
      | c1 :: c2 :: r => (128 ≤ c1 && c1 ≤ 159) && isCont c2 && validUtf8 r
      | _ => false
    else if b = 240 then
      match rest with
      | c1 :: c2 :: c3 :: r => (144 ≤ c1 && c1 ≤ 191) && isCont c2 && isCont c3 && validUtf8 r
      | _ => false
    else if 241 ≤ b ∧ b ≤ 243 then
      match rest with
      | c1 :: c2 :: c3 :: r => isCont c1 && isCont c2 && isCont c3 && validUtf8 r
      | _ => false
    else if b = 244 then
      match rest with
      | c1 :: c2 :: c3 :: r => (128 ≤ c1 && c1 ≤ 143) && isCont c2 && isCont c3 && validUtf8 r
      | _ => false
    else false

/-- Byte-level directory listings, for the panic analysis of
`find_files_recursive`: on Unix, entry names are arbitrary byte sequences,
not necessarily valid UTF-8.  Same fused cons-list shape as `FSEntries`;
file contents play no role here. -/
inductive BEntries where
  | nil
  | file (name : List Nat) (rest : BEntries)
  | dir (name : List Nat) (listable : Bool) (entries : BEntries) (rest : BEntries)

/-- The bytes of the dependency-cache directory name. -/
def nodeModulesBytes : List Nat :=
  [110, 111, 100, 101, 95, 109, 111, 100, 117, 108, 101, 115]

/-- The skip test on a (decoded) directory name, at byte level: leading
dot byte, or the dependency-cache name. -/
def bSkipDir (name : List Nat) : Bool :=
  (match name with
   | b :: _ => b == 46
   | [] => false) || name == nodeModulesBytes

/-- Rust `Path::extension` on Unix operates on the file-name bytes: split at
the final dot byte, with the same leading-dot special case as the
character-level `rustExtension`. -/
def bExtension (name : List Nat) : Option (List Nat) :=
  match name with
  | [] => none
  | b :: rest =>
    let body := if b == 46 then rest else b :: rest
    if body.contains 46 then
      some ((name.reverse.takeWhile (fun x => x != 46)).reverse)
    else none

/-- Appending one freshly pushed path in front of the result of the
remaining traversal, propagating panic and error outcomes. -/
def pushPath (p : List Nat) :
    Option (Except Unit (List (List Nat))) → Option (Except Unit (List (List Nat)))
  | none => none
  | some (.error e) => some (.error e)
  | some (.ok there) => some (.ok (p :: there))

/-- Byte-level model of `find_files_recursive` (src/main.rs lines 804-830)
with panics made explicit: the outcome is `none` when an `unwrap` panics,
`some (.error ())` when a `read_dir` fails, and `some (.ok paths)`
otherwise.  Order of effects follows the source: for a sub-directory,
`path.file_name().unwrap().to_str().unwrap()` (panic on a non-UTF-8 name)
comes before the skip test, and `path.to_str().unwrap()` on the full path
(panic) comes before `read_dir` (error).  For a file with an extension:
when the extension bytes equal the target the suffix test is
short-circuited and the push unwraps the full path; otherwise the
`ends_with` test itself unwraps the full path first. -/
def bFindFilesRecursive (dirPath ext : List Nat) : BEntries → Option (Except Unit (List (List Nat)))
  | .nil => some (.ok [])
  | .file name rest =>
    (match bExtension name with
     | none => bFindFilesRecursive dirPath ext rest
     | some fe =>
       if fe == ext then
         if validUtf8 (dirPath ++ 47 :: name) then
           pushPath (dirPath ++ 47 :: name) (bFindFilesRecursive dirPath ext rest)
         else none
       else if validUtf8 (dirPath ++ 47 :: name) then
         if (46 :: ext).isSuffixOf (dirPath ++ 47 :: name) then
           pushPath (dirPath ++ 47 :: name) (bFindFilesRecursive dirPath ext rest)
         else bFindFilesRecursive dirPath ext rest
       else none)
  | .dir name listable entries rest =>
    if validUtf8 name then
      if bSkipDir name then bFindFilesRecursive dirPath ext rest
      else if validUtf8 (dirPath ++ 47 :: name) then
        if listable then
          match bFindFilesRecursive (dirPath ++ 47 :: name) ext entries with
          | none => none
          | some (.error e) => some (.error e)
          | some (.ok here) =>
            match bFindFilesRecursive dirPath ext rest with
            | none => none
            | some (.error e) => some (.error e)
            | some (.ok there) => some (.ok (here ++ there))
        else some (.error ())
      else none
    else none

/-- Every name, and every full path built during the traversal from
`dirPath`, is valid UTF-8. -/
def bValidPaths (dirPath : List Nat) : BEntries → Bool
  | .nil => true
  | .file name rest =>
    validUtf8 name && validUtf8 (dirPath ++ 47 :: name) && bValidPaths dirPath rest
  | .dir name _ entries rest =>
    validUtf8 name && validUtf8 (dirPath ++ 47 :: name) &&
      bValidPaths (dirPath ++ 47 :: name) entries && bValidPaths dirPath rest

/-- The traversal never panics on a tree whose names and paths all decode
as UTF-8 (it may still fail with a read error). -/
theorem bFind_no_panic (ext : List Nat) :
    ∀ (es : BEntries) (dirPath : List Nat),
      bValidPaths dirPath es = true → bFindFilesRecursive dirPath ext es ≠ none
  | .nil, dirPath, _ => by simp [bFindFilesRecursive]
  | .file name rest, dirPath, hv => by
      obtain ⟨hn, hp, hr⟩ :
          validUtf8 name = true ∧ validUtf8 (dirPath ++ 47 :: name) = true ∧
            bValidPaths dirPath rest = true := by
        simpa [bValidPaths, Bool.and_eq_true, and_assoc] using hv
      have ihrest := bFind_no_panic ext rest dirPath hr
      simp only [bFindFilesRecursive]
      cases hfe : bExtension name with
      | none => exact ihrest
      | some fe =>
        dsimp only
        by_cases heq : (fe == ext) = true
        · rw [if_pos heq, if_pos hp]
          cases hrec : bFindFilesRecursive dirPath ext rest with
          | none => exact absurd hrec ihrest
          | some r => cases r <;> simp [pushPath]
        · rw [if_neg heq, if_pos hp]
          by_cases hsuf : ((46 :: ext).isSuffixOf (dirPath ++ 47 :: name)) = true
          · rw [if_pos hsuf]
            cases hrec : bFindFilesRecursive dirPath ext rest with
            | none => exact absurd hrec ihrest
            | some r => cases r <;> simp [pushPath]
          · rw [if_neg hsuf]
            exact ihrest
  | .dir name lb ents rest, dirPath, hv => by
      obtain ⟨hn, hp, he, hr⟩ :
          validUtf8 name = true ∧ validUtf8 (dirPath ++ 47 :: name) = true ∧
            bValidPaths (dirPath ++ 47 :: name) ents = true ∧
            bValidPaths dirPath rest = true := by
        simpa [bValidPaths, Bool.and_eq_true, and_assoc] using hv
      have ihrest := bFind_no_panic ext rest dirPath hr
      have ihents := bFind_no_panic ext ents (dirPath ++ 47 :: name) he
      simp only [bFindFilesRecursive]
      rw [if_pos hn]
      by_cases hs : bSkipDir name = true
      · rw [if_pos hs]
        exact ihrest
      · rw [if_neg hs, if_pos hp]
        cases lb with
        | false => simp
        | true =>
          simp only [if_true]
          cases hrec1 : bFindFilesRecursive (dirPath ++ 47 :: name) ext ents with
          | none => exact absurd hrec1 ihents
          | some r1 =>
            cases r1 with
            | error e => simp
            | ok here =>
              cases hrec2 : bFindFilesRecursive dirPath ext rest with
              | none => exact absurd hrec2 ihrest
              | some r2 => cases r2 <;> simp

/-- C10: the byte-level collector is total exactly on UTF-8-clean trees.
First conjunct: when every directory and file name, and every full path
built during traversal, decodes as UTF-8, `find_files_recursive` never
reaches a panicking `unwrap` (for any target and start path).  Second and
third conjuncts: the panic branch is reachable — a directory whose name is
the lone byte 255, or a file named 255 '.' 't' 's' whose matching path is
pushed, each make the traversal panic. -/
theorem c10_utf8_totality :
    (∀ (ext dirPath : List Nat) (es : BEntries),
        bValidPaths dirPath es = true →
        bFindFilesRecursive dirPath ext es ≠ none) ∧
    bFindFilesRecursive [112] [116, 115] (BEntries.dir [255] true .nil .nil) = none ∧
    bFindFilesRecursive [112] [116, 115] (BEntries.file [255, 46, 116, 115] .nil) = none :=
  ⟨fun ext dirPath es h => bFind_no_panic ext es dirPath h, rfl, rfl⟩

/-- Witness for C10 at a concrete input: a small all-ASCII tree (src
directory holding a.ts) is traversed without reaching a panic. -/
theorem c10_utf8_totality_witness :
    bFindFilesRecursive [112] [116, 115]
      (BEntries.dir [115, 114, 99] true (BEntries.file [97, 46, 116, 115] .nil) .nil) ≠
      none :=
  c10_utf8_totality.1 [116, 115] [112]
    (BEntries.dir [115, 114, 99] true (BEntries.file [97, 46, 116, 115] .nil) .nil)
    (by decide)
